import Mathlib

/-!
Verification of the scaproust messaging-library core against its
natural-language specification.

The repository contains two generations of the runtime:

* the newer one, in `src/core/socket.rs`, `src/ctrl/adapter.rs`,
  `src/transport/tcp/acceptor.rs` and `src/proto/publ.rs`
  (embedded below in the `Core` namespace);
* the legacy one, in `src/socket.rs` and `src/protocol/{push,surv,pair}.rs`
  (embedded below in the `Legacy` namespace).

Each Lean definition is a shallow embedding of the correspondingly named
Rust item; machine integers are modelled as `Nat` with explicit bounds
where overflow matters, fallible operations return `Except`/`Option`, and
the opaque I/O objects (streams, pipes) are replaced by the result values
their operations would produce, so the control flow of the embedded
functions mirrors the source line by line.
-/

/-- Error kinds used by the library (subset of Rust io::ErrorKind). -/
inductive ErrorKind
  | NotConnected
  | TimedOut
  | WouldBlock
  | InvalidInput
  | InvalidData
  | Other
  deriving DecidableEq, Repr

/-- Notifications sent back to the user facade (subset of SocketNotify). -/
inductive SocketNotify
  | OptionSet
  | OptionNotSet (k : ErrorKind)
  deriving DecidableEq, Repr

/-- Timer tasks registered with the event loop (event_loop_msg::EventLoopTimeout). -/
inductive EventLoopTimeout
  | Reconnect (tok : Nat) (addr : String)
  | Rebind (tok : Nat) (addr : String)
  | CancelSend (sid : Nat)
  | CancelRecv (sid : Nat)
  deriving DecidableEq, Repr

/-- Rust std::time::Duration: whole seconds plus a sub-second nanosecond part
(invariant of the Rust type: subsec_nanos < 1_000_000_000). -/
structure RDuration where
  secs : Nat
  subsec_nanos : Nat
  deriving DecidableEq, Repr

namespace Core

/-- Embeds duration_to_millis (src/core/socket.rs:460).  The source computes
the sub-second part as a truncating f64 division
(subsec_nanos as f64 / 1_000_000f64) as u64; every nanosecond count below
10^9 is exactly representable in f64 and the correctly rounded quotient can
never cross an integer boundary there, so the truncated result equals the
integer division used here. -/
def duration_to_millis (duration : RDuration) : Nat :=
  duration.secs * 1000 + duration.subsec_nanos / 1000000

/-- Embeds duration_to_timeout (src/core/socket.rs:450): a duration of zero
whole milliseconds means no timeout at all. -/
def duration_to_timeout (duration : RDuration) : Option Nat :=
  let millis := duration_to_millis duration
  if millis = 0 then none else some millis

/-- Embeds SocketImplOptions (src/core/socket.rs:375). -/
structure SocketImplOptions where
  send_timeout_ms : Option Nat
  recv_timeout_ms : Option Nat
  send_priority : Nat
  recv_priority : Nat
  tcp_nodelay : Bool
  is_device_item : Bool
  deriving DecidableEq, Repr

/-- Embeds SocketImplOptions::new (src/core/socket.rs:385). -/
def SocketImplOptions.new : SocketImplOptions :=
  { send_timeout_ms := none
    recv_timeout_ms := none
    send_priority := 8
    recv_priority := 8
    tcp_nodelay := false
    is_device_item := false }

/-- Embeds is_valid_priority (src/core/socket.rs:446). -/
def is_valid_priority (priority : Nat) : Bool :=
  priority ≥ 1 && priority ≤ 16

/-- Embeds SocketImplOptions::set_send_timeout (src/core/socket.rs:396). -/
def SocketImplOptions.set_send_timeout (o : SocketImplOptions) (timeout : RDuration) :
    Except ErrorKind SocketImplOptions :=
  Except.ok { o with send_timeout_ms := duration_to_timeout timeout }

/-- Embeds SocketImplOptions::set_recv_timeout (src/core/socket.rs:402). -/
def SocketImplOptions.set_recv_timeout (o : SocketImplOptions) (timeout : RDuration) :
    Except ErrorKind SocketImplOptions :=
  Except.ok { o with recv_timeout_ms := duration_to_timeout timeout }

/-- Embeds SocketImplOptions::set_send_priority (src/core/socket.rs:408);
invalid_data_io_error produces io::ErrorKind::InvalidData. -/
def SocketImplOptions.set_send_priority (o : SocketImplOptions) (priority : Nat) :
    Except ErrorKind SocketImplOptions :=
  if is_valid_priority priority then
    Except.ok { o with send_priority := priority }
  else
    Except.error ErrorKind.InvalidData

/-- Embeds SocketImplOptions::set_recv_priority (src/core/socket.rs:421). -/
def SocketImplOptions.set_recv_priority (o : SocketImplOptions) (priority : Nat) :
    Except ErrorKind SocketImplOptions :=
  if is_valid_priority priority then
    Except.ok { o with recv_priority := priority }
  else
    Except.error ErrorKind.InvalidData

/-- Socket options relevant to the settled claims (event_loop_msg::SocketOption). -/
inductive SocketOption
  | SendTimeout (d : RDuration)
  | RecvTimeout (d : RDuration)
  | SendPriority (p : Nat)
  | RecvPriority (p : Nat)
  deriving DecidableEq, Repr

/-- Embeds Socket::set_option (src/core/socket.rs:338) for the four options
above: the option reply is OptionSet on Ok and OptionNotSet on Err, and on
Err the stored options are unchanged (the setters only assign on success). -/
def Socket.set_option (o : SocketImplOptions) (option : SocketOption) :
    SocketImplOptions × SocketNotify :=
  let set_res :=
    match option with
    | SocketOption.SendTimeout t => o.set_send_timeout t
    | SocketOption.RecvTimeout t => o.set_recv_timeout t
    | SocketOption.SendPriority p => o.set_send_priority p
    | SocketOption.RecvPriority p => o.set_recv_priority p
  match set_res with
  | Except.ok o2 => (o2, SocketNotify.OptionSet)
  | Except.error e => (o, SocketNotify.OptionNotSet e)

/-- Embeds the timer decision of Socket::send (src/core/socket.rs:302): a
CancelSend timer is scheduled with the configured delay iff send_timeout_ms
is Some; with None the protocol send is issued with no cancellation handle,
so no send timeout can ever fire. -/
def Socket.send_timer (o : SocketImplOptions) (sid : Nat) :
    Option (EventLoopTimeout × Nat) :=
  match o.send_timeout_ms with
  | some timeout => some (EventLoopTimeout.CancelSend sid, timeout)
  | none => none

/-- Embeds the timer decision of Socket::recv (src/core/socket.rs:320). -/
def Socket.recv_timer (o : SocketImplOptions) (sid : Nat) :
    Option (EventLoopTimeout × Nat) :=
  match o.recv_timeout_ms with
  | some timeout => some (EventLoopTimeout.CancelRecv sid, timeout)
  | none => none

end Core

/-- Claim C9: setting SendPriority(p) or RecvPriority(p) succeeds (replies
OptionSet and stores p) if and only if 1 <= p <= 16; for every p outside that
range the option reply is an error and the stored priority is unchanged, the
default being 8. -/
theorem c9_priority_option_range (o : Core.SocketImplOptions) (p : Nat) :
    (Core.SocketImplOptions.new.send_priority = 8
      ∧ Core.SocketImplOptions.new.recv_priority = 8)
    ∧ ((Core.Socket.set_option o (Core.SocketOption.SendPriority p)).2
          = SocketNotify.OptionSet ↔ 1 ≤ p ∧ p ≤ 16)
    ∧ ((Core.Socket.set_option o (Core.SocketOption.RecvPriority p)).2
          = SocketNotify.OptionSet ↔ 1 ≤ p ∧ p ≤ 16)
    ∧ (1 ≤ p ∧ p ≤ 16 →
        (Core.Socket.set_option o (Core.SocketOption.SendPriority p)).1.send_priority = p
        ∧ (Core.Socket.set_option o (Core.SocketOption.RecvPriority p)).1.recv_priority = p)
    ∧ (¬ (1 ≤ p ∧ p ≤ 16) →
        (Core.Socket.set_option o (Core.SocketOption.SendPriority p)).1 = o
        ∧ (Core.Socket.set_option o (Core.SocketOption.RecvPriority p)).1 = o
        ∧ (Core.Socket.set_option o (Core.SocketOption.SendPriority p)).2
            = SocketNotify.OptionNotSet ErrorKind.InvalidData
        ∧ (Core.Socket.set_option o (Core.SocketOption.RecvPriority p)).2
            = SocketNotify.OptionNotSet ErrorKind.InvalidData) := by
  unfold Core.Socket.set_option Core.SocketImplOptions.set_send_priority
    Core.SocketImplOptions.set_recv_priority Core.is_valid_priority
  by_cases hp : 1 ≤ p ∧ p ≤ 16
  · have hb : (decide (p ≥ 1) && decide (p ≤ 16)) = true := by
      simp [hp.1, hp.2]
    simp [Core.SocketImplOptions.new, hb, hp]
  · have hb : (decide (p ≥ 1) && decide (p ≤ 16)) = false := by
      simp only [Bool.and_eq_false_iff, decide_eq_false_iff_not]
      omega
    simp [Core.SocketImplOptions.new, hb, hp]

/-- Witness for C9 at concrete priorities 0 (rejected, default kept) and 5
(accepted and stored). -/
theorem c9_priority_option_range_witness :
    (Core.Socket.set_option Core.SocketImplOptions.new
        (Core.SocketOption.SendPriority 0)).2
      = SocketNotify.OptionNotSet ErrorKind.InvalidData
    ∧ (Core.Socket.set_option Core.SocketImplOptions.new
        (Core.SocketOption.SendPriority 0)).1.send_priority = 8
    ∧ (Core.Socket.set_option Core.SocketImplOptions.new
        (Core.SocketOption.SendPriority 5)).2 = SocketNotify.OptionSet := by
  have h0 := c9_priority_option_range Core.SocketImplOptions.new 0
  have h5 := c9_priority_option_range Core.SocketImplOptions.new 5
  refine ⟨(h0.2.2.2.2 (by omega)).2.2.1, ?_, (h5.2.1).mpr (by omega)⟩
  rw [(h0.2.2.2.2 (by omega)).1]
  exact h0.1.1

/-- Claim C10: setting SendTimeout or RecvTimeout to any duration that
truncates to 0 whole milliseconds stores no timeout at all, so subsequent
send/recv operations schedule no cancellation timer and wait indefinitely;
the option-set reply is still OptionSet. -/
theorem c10_zero_ms_timeout_means_no_timeout (o : Core.SocketImplOptions)
    (d : RDuration) (sid : Nat)
    (hsec : d.secs = 0) (hnano : d.subsec_nanos < 1000000) :
    Core.duration_to_timeout d = none
    ∧ (Core.Socket.set_option o (Core.SocketOption.SendTimeout d)).2
        = SocketNotify.OptionSet
    ∧ (Core.Socket.set_option o (Core.SocketOption.SendTimeout d)).1.send_timeout_ms
        = none
    ∧ Core.Socket.send_timer
        (Core.Socket.set_option o (Core.SocketOption.SendTimeout d)).1 sid = none
    ∧ (Core.Socket.set_option o (Core.SocketOption.RecvTimeout d)).2
        = SocketNotify.OptionSet
    ∧ (Core.Socket.set_option o (Core.SocketOption.RecvTimeout d)).1.recv_timeout_ms
        = none
    ∧ Core.Socket.recv_timer
        (Core.Socket.set_option o (Core.SocketOption.RecvTimeout d)).1 sid = none := by
  have hm : Core.duration_to_millis d = 0 := by
    unfold Core.duration_to_millis
    rw [hsec]
    simp [Nat.div_eq_of_lt hnano]
  have ht : Core.duration_to_timeout d = none := by
    unfold Core.duration_to_timeout
    simp [hm]
  refine ⟨ht, ?_⟩
  unfold Core.Socket.set_option Core.SocketImplOptions.set_send_timeout
    Core.SocketImplOptions.set_recv_timeout Core.Socket.send_timer
    Core.Socket.recv_timer
  simp [ht]

/-- Witness for C10 at the duration of 999999 nanoseconds (just below one
millisecond). -/
theorem c10_zero_ms_timeout_means_no_timeout_witness :
    Core.duration_to_timeout ⟨0, 999999⟩ = none
    ∧ (Core.Socket.set_option Core.SocketImplOptions.new
        (Core.SocketOption.SendTimeout ⟨0, 999999⟩)).2 = SocketNotify.OptionSet
    ∧ Core.Socket.send_timer
        (Core.Socket.set_option Core.SocketImplOptions.new
          (Core.SocketOption.SendTimeout ⟨0, 999999⟩)).1 7 = none := by
  have h := c10_zero_ms_timeout_means_no_timeout Core.SocketImplOptions.new
    ⟨0, 999999⟩ 7 rfl (by decide)
  exact ⟨h.1, h.2.1, h.2.2.2.1⟩

/-- Result of Protocol::remove_pipe as consumed by the socket shells: a
removed pipe carries the original connect URL when it was dialed
(None when it was accepted). -/
structure RemovedPipe where
  addr : Option String
  deriving DecidableEq, Repr

namespace Core

/-- Embeds Socket::schedule_reconnect (src/core/socket.rs:266): registers a
Reconnect timer carrying the original URL, with a 500 ms delay. -/
def Socket.schedule_reconnect (tok : Nat) (addr : String) : EventLoopTimeout × Nat :=
  (EventLoopTimeout.Reconnect tok addr, 500)

/-- Embeds Socket::schedule_rebind (src/core/socket.rs:273): registers a
Rebind timer carrying the saved URL, with a 500 ms delay. -/
def Socket.schedule_rebind (tok : Nat) (addr : String) : EventLoopTimeout × Nat :=
  (EventLoopTimeout.Rebind tok addr, 500)

/-- Embeds Socket::remove_pipe_and_schedule_reconnect (src/core/socket.rs:257):
if the protocol yields a pipe for the token it is closed, and when its addr is
Some (a dialed pipe) a reconnect to that URL is scheduled. -/
def Socket.remove_pipe_and_schedule_reconnect (removed : Option RemovedPipe)
    (tok : Nat) : Option (EventLoopTimeout × Nat) :=
  match removed with
  | some pipe =>
    match pipe.addr with
    | some addr => some (Socket.schedule_reconnect tok addr)
    | none => none
  | none => none

/-- Embeds Socket::remove_acceptor (src/core/socket.rs:206) over an
association-list image of the HashMap (token keys are unique, so filtering
the key equals the map removal). -/
def remove_acceptor (acceptors : List (Nat × String)) (tok : Nat) :
    Option String × List (Nat × String) :=
  (acceptors.lookup tok, acceptors.filter (fun a => a.1 != tok))

/-- Embeds Socket::on_acceptor_error (src/core/socket.rs:287): the acceptor is
removed and closed, and a Rebind timer with its saved URL is registered with a
500 ms delay. -/
def Socket.on_acceptor_error (acceptors : List (Nat × String)) (tok : Nat) :
    List (Nat × String) × Option (EventLoopTimeout × Nat) :=
  match remove_acceptor acceptors tok with
  | (some addr, rest) => (rest, some (EventLoopTimeout.Rebind tok addr, 500))
  | (none, rest) => (rest, none)

end Core

namespace Legacy

/-- Embeds Socket::schedule_reconnect (src/socket.rs:270): the legacy socket
registers the Reconnect timer with timeout_ms 200. -/
def Socket.schedule_reconnect (tok : Nat) (addr : String) : EventLoopTimeout × Nat :=
  (EventLoopTimeout.Reconnect tok addr, 200)

/-- Embeds Socket::remove_pipe_and_schedule_reconnect (src/socket.rs:261): the
whole body is commented out in the source, so pipe loss schedules nothing. -/
def Socket.remove_pipe_and_schedule_reconnect (_removed : Option RemovedPipe)
    (_tok : Nat) : Option (EventLoopTimeout × Nat) :=
  none

/-- Embeds Socket::on_acceptor_error (src/socket.rs:298): the acceptor is
removed and closed, and the Rebind timer is registered with timeout_ms 200. -/
def Socket.on_acceptor_error (acceptors : List (Nat × String)) (tok : Nat) :
    List (Nat × String) × Option (EventLoopTimeout × Nat) :=
  match Core.remove_acceptor acceptors tok with
  | (some addr, rest) => (rest, some (EventLoopTimeout.Rebind tok addr, 200))
  | (none, rest) => (rest, none)

end Legacy

/-- Counterexample to claim C3: the legacy socket (src/socket.rs) schedules
its rebind after an acceptor error and its reconnects with a 200 ms delay,
not 500 ms; its pipe-loss handler schedules no reconnect at all. -/
theorem c3_counterexample :
    (Legacy.Socket.on_acceptor_error [(3, "tcp://127.0.0.1:5454")] 3).2
      = some (EventLoopTimeout.Rebind 3 "tcp://127.0.0.1:5454", 200)
    ∧ (Legacy.Socket.schedule_reconnect 4 "tcp://127.0.0.1:5454").2 = 200
    ∧ Legacy.Socket.remove_pipe_and_schedule_reconnect
        (some ⟨some "tcp://127.0.0.1:5454"⟩) 4 = none
    ∧ (200 : Nat) ≠ 500 := by
  refine ⟨rfl, rfl, rfl, by decide⟩

/-- Claim C3 as amended: in the core socket (src/core/socket.rs) a
non-gracefully lost dialed pipe gets a reconnect to its original URL after
exactly 500 ms and an acceptor hit by a listen error is removed with a rebind
to the saved URL scheduled after exactly 500 ms; in the legacy socket
(src/socket.rs) both delays are 200 ms and the pipe-loss handler is commented
out, scheduling nothing. -/
theorem c3_reconnect_rebind_delays (tok : Nat) (addr : String)
    (acceptors : List (Nat × String)) (h : acceptors.lookup tok = some addr) :
    Core.Socket.schedule_reconnect tok addr = (EventLoopTimeout.Reconnect tok addr, 500)
    ∧ Core.Socket.remove_pipe_and_schedule_reconnect (some ⟨some addr⟩) tok
        = some (EventLoopTimeout.Reconnect tok addr, 500)
    ∧ (Core.Socket.on_acceptor_error acceptors tok).2
        = some (EventLoopTimeout.Rebind tok addr, 500)
    ∧ (∀ x ∈ (Core.Socket.on_acceptor_error acceptors tok).1, x.1 ≠ tok)
    ∧ Legacy.Socket.schedule_reconnect tok addr
        = (EventLoopTimeout.Reconnect tok addr, 200)
    ∧ (Legacy.Socket.on_acceptor_error acceptors tok).2
        = some (EventLoopTimeout.Rebind tok addr, 200)
    ∧ Legacy.Socket.remove_pipe_and_schedule_reconnect (some ⟨some addr⟩) tok
        = none := by
  refine ⟨rfl, rfl, ?_, ?_, rfl, ?_, rfl⟩
  · simp [Core.Socket.on_acceptor_error, Core.remove_acceptor, h]
  · intro x hx
    simp only [Core.Socket.on_acceptor_error, Core.remove_acceptor, h] at hx
    have := List.mem_filter.mp hx
    simpa using this.2
  · simp [Legacy.Socket.on_acceptor_error, Core.remove_acceptor, h]

/-- Witness for C3 (amended) on a one-acceptor socket. -/
theorem c3_reconnect_rebind_delays_witness :
    (Core.Socket.on_acceptor_error [(3, "tcp://127.0.0.1:5454")] 3).2
      = some (EventLoopTimeout.Rebind 3 "tcp://127.0.0.1:5454", 500)
    ∧ Core.Socket.remove_pipe_and_schedule_reconnect
        (some ⟨some "tcp://127.0.0.1:5454"⟩) 3
      = some (EventLoopTimeout.Reconnect 3 "tcp://127.0.0.1:5454", 500) := by
  have h := c3_reconnect_rebind_delays 3 "tcp://127.0.0.1:5454"
    [(3, "tcp://127.0.0.1:5454")] (by simp [List.lookup])
  exact ⟨h.2.2.1, h.2.1⟩

/-- Outcome of a Rust computation that may panic. -/
inductive Outcome (α : Type)
  | ok (a : α)
  | err (k : ErrorKind)
  | panicked
  deriving DecidableEq, Repr

/-- Transports known to the library; only TCP is registered. -/
inductive Transport
  | Tcp
  deriving DecidableEq, Repr

/-- Strings are embedded as character lists; split_sep is Rust
str::split("://"): it cuts the text at every non-overlapping occurrence of
"://" scanning left to right, keeping empty segments. -/
def split_sep : List Char → List (List Char)
  | [] => [[]]
  | ':' :: '/' :: '/' :: rest => [] :: split_sep rest
  | c :: rest =>
    match split_sep rest with
    | [] => [[c]]
    | p :: ps => (c :: p) :: ps

/-- Rejoins segments with "://"; join_sep (split_sep u) = u, so the tail of a
split rejoined is exactly the text after the first separator. -/
def join_sep : List (List Char) → List Char
  | [] => []
  | [p] => p
  | p :: ps => p ++ ':' :: '/' :: '/' :: join_sep ps

/-- Spelling of the scheme "tcp" as a character list. -/
def tcpScheme : List Char := ['t', 'c', 'p']

/-- Modelled from the spec: create_transport (its file src/transport/mod.rs is
not among the sources); the scheme selects the transport and unknown schemes
return InvalidInput.  Only the TCP transport is assumed. -/
def create_transport (scheme : List Char) : Except ErrorKind Transport :=
  if scheme = tcpScheme then Except.ok Transport.Tcp
  else Except.error ErrorKind.InvalidInput

namespace Core

/-- Embeds SocketEventLoopContext::get_transport (src/ctrl/adapter.rs:276):
only the "tcp" scheme maps to a transport, every other scheme is
invalid_input_io_error. -/
def get_transport (scheme : List Char) : Except ErrorKind Transport :=
  if scheme = tcpScheme then Except.ok Transport.Tcp
  else Except.error ErrorKind.InvalidInput

/-- Embeds the URL handling of SocketEventLoopContext::connect
(src/ctrl/adapter.rs:283): url.find("://") locates the first separator (None
is invalid_input_io_error), split_at cuts the url there and the three
separator bytes are dropped from the remainder.  Splitting at every
occurrence and rejoining the tail with join_sep reproduces exactly that
first-occurrence split.  The result carries the chosen transport and the
address handed to transport.connect. -/
def SocketEventLoopContext.connect (url : List Char) :
    Except ErrorKind (Transport × List Char) :=
  match split_sep url with
  | [] => Except.error ErrorKind.InvalidInput
  | [_] => Except.error ErrorKind.InvalidInput
  | scheme :: rest =>
    match get_transport scheme with
    | Except.error e => Except.error e
    | Except.ok t => Except.ok (t, join_sep rest)

/-- Embeds the URL handling of SocketEventLoopContext::bind
(src/ctrl/adapter.rs:296), identical to the connect side. -/
def SocketEventLoopContext.bind (url : List Char) :
    Except ErrorKind (Transport × List Char) :=
  match split_sep url with
  | [] => Except.error ErrorKind.InvalidInput
  | [_] => Except.error ErrorKind.InvalidInput
  | scheme :: rest =>
    match get_transport scheme with
    | Except.error e => Except.error e
    | Except.ok t => Except.ok (t, join_sep rest)

/-- Modelled from the spec: Sequence (its file src/sequence.rs is not among
the sources); it vends fresh ids from a monotonically-increasing counter. -/
structure Sequence where
  next_value : Nat
  deriving DecidableEq, Repr

/-- Modelled from the spec: Sequence::next returns the current counter value
and increments it. -/
def Sequence.next (s : Sequence) : Nat × Sequence :=
  (s.next_value, ⟨s.next_value + 1⟩)

/-- Embeds EndpointCollection (src/ctrl/adapter.rs:65): pipes and acceptors
are stored apart but their EndpointIds come from the one shared sequence.
The HashMaps are modelled as association lists keyed by EndpointId, carrying
the owning SocketId of each controller. -/
structure EndpointCollection where
  ids : Sequence
  pipes : List (Nat × Nat)
  acceptors : List (Nat × Nat)
  deriving DecidableEq, Repr

/-- Embeds EndpointCollection::insert_pipe (src/ctrl/adapter.rs:170). -/
def EndpointCollection.insert_pipe (c : EndpointCollection) (sid : Nat) :
    Nat × EndpointCollection :=
  let (eid, ids2) := c.ids.next
  (eid, { c with ids := ids2, pipes := (eid, sid) :: c.pipes })

/-- Embeds EndpointCollection::insert_acceptor (src/ctrl/adapter.rs:196). -/
def EndpointCollection.insert_acceptor (c : EndpointCollection) (sid : Nat) :
    Nat × EndpointCollection :=
  let (eid, ids2) := c.ids.next
  (eid, { c with ids := ids2, acceptors := (eid, sid) :: c.acceptors })

/-- Embeds Network::connect for SocketEventLoopContext
(src/ctrl/adapter.rs:312): the URL must parse and the transport connect; only
then is a pipe controller inserted and a fresh EndpointId issued.  On error
the collection is untouched. -/
def Network.connect (c : EndpointCollection) (sid : Nat) (url : List Char) :
    Except ErrorKind Nat × EndpointCollection :=
  match SocketEventLoopContext.connect url with
  | Except.error e => (Except.error e, c)
  | Except.ok _ =>
    let (eid, c2) := c.insert_pipe sid
    (Except.ok eid, c2)

/-- Embeds Network::bind for SocketEventLoopContext (src/ctrl/adapter.rs:324). -/
def Network.bind (c : EndpointCollection) (sid : Nat) (url : List Char) :
    Except ErrorKind Nat × EndpointCollection :=
  match SocketEventLoopContext.bind url with
  | Except.error e => (Except.error e, c)
  | Except.ok _ =>
    let (eid, c2) := c.insert_acceptor sid
    (Except.ok eid, c2)

/-- Embeds the URL split of Socket::create_connection (src/core/socket.rs:140)
and Socket::create_listener (src/core/socket.rs:182), shared verbatim by the
legacy src/socket.rs versions: addr.split("://") collects every segment, and
the code indexes parts[0] and parts[1].  A missing separator makes
addr_parts[1] an out-of-bounds index, a panic; segments after a second
separator are silently dropped because only parts[1] is read. -/
def Socket.split_addr (addr : List Char) : Outcome (List Char × List Char) :=
  match split_sep addr with
  | scheme :: specific :: _ => Outcome.ok (scheme, specific)
  | _ => Outcome.panicked

/-- Embeds Socket::create_connection (src/core/socket.rs:140): split the addr,
then create_transport by scheme, then connect to the specific address. -/
def Socket.create_connection (addr : List Char) : Outcome (Transport × List Char) :=
  match Socket.split_addr addr with
  | Outcome.panicked => Outcome.panicked
  | Outcome.err e => Outcome.err e
  | Outcome.ok (scheme, specific) =>
    match create_transport scheme with
    | Except.error e => Outcome.err e
    | Except.ok t => Outcome.ok (t, specific)

/-- Embeds Socket::create_listener (src/core/socket.rs:182), same shape as
create_connection. -/
def Socket.create_listener (addr : List Char) : Outcome (Transport × List Char) :=
  match Socket.split_addr addr with
  | Outcome.panicked => Outcome.panicked
  | Outcome.err e => Outcome.err e
  | Outcome.ok (scheme, specific) =>
    match create_transport scheme with
    | Except.error e => Outcome.err e
    | Except.ok t => Outcome.ok (t, specific)

end Core

/-- Counterexample to claim C4: Socket::create_connection in
src/core/socket.rs (shared verbatim by src/socket.rs) panics on a URL with no
"://" separator (out-of-bounds index into the split segments) instead of
returning an InvalidInput error. -/
theorem c4_counterexample :
    Core.Socket.create_connection "tcp127.0.0.1:5454".toList = Outcome.panicked
    ∧ Outcome.panicked
        ≠ (Outcome.err ErrorKind.InvalidInput : Outcome (Transport × List Char)) := by
  exact ⟨by decide, by decide⟩

/-- Claim C4 as amended: the event-loop context (src/ctrl/adapter.rs) splits
every connect/bind URL at the first "://", returns InvalidInput when the
separator is absent or the scheme names no known transport, and creates no
endpoint in either case; the "tcp" scheme succeeds and hands the transport
the full remainder after the first separator.  The older
Socket::create_connection/create_listener (src/core/socket.rs, src/socket.rs)
instead index the split segments, so a URL without "://" panics there, and
the address is truncated at any second separator. -/
theorem c4_url_split (url scheme : List Char) (rest : List (List Char))
    (c : Core.EndpointCollection) (sid : Nat) :
    (split_sep url = [url] →
      Core.SocketEventLoopContext.connect url = Except.error ErrorKind.InvalidInput
      ∧ Core.SocketEventLoopContext.bind url = Except.error ErrorKind.InvalidInput
      ∧ Core.Network.connect c sid url = (Except.error ErrorKind.InvalidInput, c)
      ∧ Core.Network.bind c sid url = (Except.error ErrorKind.InvalidInput, c)
      ∧ Core.Socket.create_connection url = Outcome.panicked
      ∧ Core.Socket.create_listener url = Outcome.panicked)
    ∧ (split_sep url = scheme :: rest → rest ≠ [] → scheme ≠ tcpScheme →
      Core.SocketEventLoopContext.connect url = Except.error ErrorKind.InvalidInput
      ∧ Core.Network.connect c sid url = (Except.error ErrorKind.InvalidInput, c))
    ∧ (split_sep url = tcpScheme :: rest → rest ≠ [] →
      Core.SocketEventLoopContext.connect url
        = Except.ok (Transport.Tcp, join_sep rest)
      ∧ ∀ specific tail, rest = specific :: tail →
          Core.Socket.create_connection url = Outcome.ok (Transport.Tcp, specific)) := by
  refine ⟨?_, ?_, ?_⟩
  · intro h
    have hconn : Core.SocketEventLoopContext.connect url
        = Except.error ErrorKind.InvalidInput := by
      unfold Core.SocketEventLoopContext.connect
      rw [h]
    have hbind : Core.SocketEventLoopContext.bind url
        = Except.error ErrorKind.InvalidInput := by
      unfold Core.SocketEventLoopContext.bind
      rw [h]
    refine ⟨hconn, hbind, ?_, ?_, ?_, ?_⟩
    · unfold Core.Network.connect
      rw [hconn]
    · unfold Core.Network.bind
      rw [hbind]
    · unfold Core.Socket.create_connection Core.Socket.split_addr
      rw [h]
    · unfold Core.Socket.create_listener Core.Socket.split_addr
      rw [h]
  · intro h hr hs
    rcases rest with _ | ⟨r, rs⟩
    · exact absurd rfl hr
    have hconn : Core.SocketEventLoopContext.connect url
        = Except.error ErrorKind.InvalidInput := by
      unfold Core.SocketEventLoopContext.connect
      rw [h]
      simp [Core.get_transport, hs]
    refine ⟨hconn, ?_⟩
    unfold Core.Network.connect
    rw [hconn]
  · intro h hr
    rcases rest with _ | ⟨r, rs⟩
    · exact absurd rfl hr
    constructor
    · unfold Core.SocketEventLoopContext.connect
      rw [h]
      simp [Core.get_transport]
    · intro specific tail htl
      cases htl
      unfold Core.Socket.create_connection Core.Socket.split_addr
      rw [h]
      simp [create_transport]

/-- Witness for C4 (amended) on the URLs "noscheme" (no separator),
"foo://x" (unknown scheme) and "tcp://127.0.0.1:5454" (accepted). -/
theorem c4_url_split_witness :
    Core.SocketEventLoopContext.connect "noscheme".toList
      = Except.error ErrorKind.InvalidInput
    ∧ Core.Network.connect ⟨⟨0⟩, [], []⟩ 1 "foo://x".toList
      = (Except.error ErrorKind.InvalidInput, ⟨⟨0⟩, [], []⟩)
    ∧ Core.SocketEventLoopContext.connect "tcp://127.0.0.1:5454".toList
      = Except.ok (Transport.Tcp, "127.0.0.1:5454".toList) := by
  have h1 := (c4_url_split "noscheme".toList [] [] ⟨⟨0⟩, [], []⟩ 1).1 (by decide)
  have h2 := (c4_url_split "foo://x".toList "foo".toList ["x".toList]
    ⟨⟨0⟩, [], []⟩ 1).2.1 (by decide) (by decide) (by decide)
  have h3 := (c4_url_split "tcp://127.0.0.1:5454".toList tcpScheme
    ["127.0.0.1:5454".toList] ⟨⟨0⟩, [], []⟩ 1).2.2 (by decide) (by decide)
  exact ⟨h1.1, h2.2, h3.1⟩

namespace Core

/-- One insertion into the EndpointCollection, as triggered by
Network::connect / Network::bind / reconnect accept handling. -/
inductive EpInsert
  | pipe (sid : Nat)
  | acceptor (sid : Nat)
  deriving DecidableEq, Repr

/-- Runs a sequence of pipe/acceptor insertions against the collection,
returning the EndpointIds issued, in order. -/
def EndpointCollection.run (c : EndpointCollection) :
    List EpInsert → List Nat × EndpointCollection
  | [] => ([], c)
  | op :: ops =>
    let step :=
      match op with
      | EpInsert.pipe sid => c.insert_pipe sid
      | EpInsert.acceptor sid => c.insert_acceptor sid
    let rest := step.2.run ops
    (step.1 :: rest.1, rest.2)

/-- Keys currently stored in the collection, pipes and acceptors together. -/
def EndpointCollection.keys (c : EndpointCollection) : List Nat :=
  c.pipes.map Prod.fst ++ c.acceptors.map Prod.fst

/-- Well-formedness: every stored key was issued below the current counter. -/
def EndpointCollection.WF (c : EndpointCollection) : Prop :=
  ∀ k ∈ c.keys, k < c.ids.next_value

/-- The ids a run issues are exactly the consecutive integers starting at the
current counter. -/
theorem EndpointCollection.run_ids (ops : List EpInsert) (c : EndpointCollection) :
    (c.run ops).1 = List.range' c.ids.next_value ops.length := by
  induction ops generalizing c with
  | nil => rfl
  | cons op ops ih =>
    cases op with
    | pipe sid =>
      simp [EndpointCollection.run, EndpointCollection.insert_pipe, Sequence.next,
        List.range'_succ, ih]
    | acceptor sid =>
      simp [EndpointCollection.run, EndpointCollection.insert_acceptor, Sequence.next,
        List.range'_succ, ih]

/-- A run advances the counter by the number of insertions and conses the new
keys onto the stored ones. -/
theorem EndpointCollection.run_counter (ops : List EpInsert) (c : EndpointCollection) :
    (c.run ops).2.ids.next_value = c.ids.next_value + ops.length := by
  induction ops generalizing c with
  | nil => rfl
  | cons op ops ih =>
    cases op with
    | pipe sid =>
      simp [EndpointCollection.run, EndpointCollection.insert_pipe, Sequence.next, ih]
      omega
    | acceptor sid =>
      simp [EndpointCollection.run, EndpointCollection.insert_acceptor, Sequence.next, ih]
      omega

/-- Every key stored after a run is either an old key or one of the issued ids. -/
theorem EndpointCollection.run_keys (ops : List EpInsert) (c : EndpointCollection) :
    ∀ k, k ∈ (c.run ops).2.keys → k ∈ c.keys ∨ k ∈ (c.run ops).1 := by
  induction ops generalizing c with
  | nil => intro k hk; exact Or.inl hk
  | cons op ops ih =>
    intro k hk
    cases op with
    | pipe sid =>
      rcases ih (c.insert_pipe sid).2 k hk with h | h
      · simp [EndpointCollection.insert_pipe, EndpointCollection.keys] at h
        rcases h with h | h | h
        · exact Or.inr (by simp [EndpointCollection.run, EndpointCollection.insert_pipe,
            Sequence.next, h])
        · exact Or.inl (by simp [EndpointCollection.keys, h])
        · exact Or.inl (by simp [EndpointCollection.keys, h])
      · exact Or.inr (by simp [EndpointCollection.run, Sequence.next, h])
    | acceptor sid =>
      rcases ih (c.insert_acceptor sid).2 k hk with h | h
      · simp [EndpointCollection.insert_acceptor, EndpointCollection.keys] at h
        rcases h with h | h | h
        · exact Or.inl (by simp [EndpointCollection.keys, h])
        · exact Or.inr (by simp [EndpointCollection.run, EndpointCollection.insert_acceptor,
            Sequence.next, h])
        · exact Or.inl (by simp [EndpointCollection.keys, h])
      · exact Or.inr (by simp [EndpointCollection.run, Sequence.next, h])

/-- Well-formedness and the pipe/acceptor key disjointness are preserved by
any run. -/
theorem EndpointCollection.run_wf_disjoint (ops : List EpInsert)
    (c : EndpointCollection) (hwf : c.WF)
    (hdisj : ∀ k, k ∈ c.pipes.map Prod.fst → k ∉ c.acceptors.map Prod.fst) :
    (c.run ops).2.WF
    ∧ ∀ k, k ∈ (c.run ops).2.pipes.map Prod.fst →
        k ∉ (c.run ops).2.acceptors.map Prod.fst := by
  induction ops generalizing c with
  | nil => exact ⟨hwf, hdisj⟩
  | cons op ops ih =>
    cases op with
    | pipe sid =>
      have hwf2 : (c.insert_pipe sid).2.WF := by
        intro k hk
        simp [EndpointCollection.insert_pipe, EndpointCollection.keys,
          Sequence.next] at hk ⊢
        rcases hk with h | h | h
        · omega
        · have := hwf k (by simp [EndpointCollection.keys, h])
          omega
        · have := hwf k (by simp [EndpointCollection.keys, h])
          omega
      have hdisj2 : ∀ k, k ∈ (c.insert_pipe sid).2.pipes.map Prod.fst →
          k ∉ (c.insert_pipe sid).2.acceptors.map Prod.fst := by
        have hpipes : (c.insert_pipe sid).2.pipes
            = (c.ids.next_value, sid) :: c.pipes := rfl
        have hacc : (c.insert_pipe sid).2.acceptors = c.acceptors := rfl
        intro k hk
        rw [hpipes, List.map_cons] at hk
        rw [hacc]
        rcases List.mem_cons.mp hk with h | h
        · intro hmem
          have := hwf k (List.mem_append.mpr (Or.inr hmem))
          omega
        · exact hdisj k h
      simpa [EndpointCollection.run] using ih (c.insert_pipe sid).2 hwf2 hdisj2
    | acceptor sid =>
      have hwf2 : (c.insert_acceptor sid).2.WF := by
        intro k hk
        simp [EndpointCollection.insert_acceptor, EndpointCollection.keys,
          Sequence.next] at hk ⊢
        rcases hk with h | h | h
        · have := hwf k (by simp [EndpointCollection.keys, h])
          omega
        · omega
        · have := hwf k (by simp [EndpointCollection.keys, h])
          omega
      have hdisj2 : ∀ k, k ∈ (c.insert_acceptor sid).2.pipes.map Prod.fst →
          k ∉ (c.insert_acceptor sid).2.acceptors.map Prod.fst := by
        have hpipes : (c.insert_acceptor sid).2.pipes = c.pipes := rfl
        have hacc : (c.insert_acceptor sid).2.acceptors
            = (c.ids.next_value, sid) :: c.acceptors := rfl
        intro k hk
        rw [hpipes] at hk
        rw [hacc, List.map_cons]
        intro hmem
        rcases List.mem_cons.mp hmem with h | h
        · have := hwf k (List.mem_append.mpr (Or.inl hk))
          omega
        · exact hdisj k hk h
      simpa [EndpointCollection.run] using ih (c.insert_acceptor sid).2 hwf2 hdisj2

end Core

/-- Claim C8: EndpointIds vended by the EndpointCollection come from the one
monotonically-increasing sequence shared between pipes and acceptors: in any
run of insertions no id is issued twice, no issued id collides with a stored
key, and after the run no pipe and acceptor share an id. -/
theorem c8_endpoint_ids_unique (c : Core.EndpointCollection)
    (ops : List Core.EpInsert) (hwf : c.WF)
    (hdisj : ∀ k, k ∈ c.pipes.map Prod.fst → k ∉ c.acceptors.map Prod.fst) :
    (c.run ops).1.Nodup
    ∧ (∀ i ∈ (c.run ops).1, i ∉ c.keys)
    ∧ (∀ k, k ∈ (c.run ops).2.pipes.map Prod.fst →
        k ∉ (c.run ops).2.acceptors.map Prod.fst) := by
  have hids := Core.EndpointCollection.run_ids ops c
  refine ⟨?_, ?_, (Core.EndpointCollection.run_wf_disjoint ops c hwf hdisj).2⟩
  · rw [hids]
    exact List.nodup_range' _ _
  · intro i hi hkey
    rw [hids] at hi
    have hlow : c.ids.next_value ≤ i := (List.mem_range'_1.mp hi).1
    have := hwf i hkey
    omega

/-- Witness for C8: three insertions into an empty collection issue the
distinct ids 0, 1, 2 with the acceptor id disjoint from the pipe ids. -/
theorem c8_endpoint_ids_unique_witness :
    (Core.EndpointCollection.run ⟨⟨0⟩, [], []⟩
        [Core.EpInsert.pipe 1, Core.EpInsert.acceptor 1, Core.EpInsert.pipe 2]).1
      = [0, 1, 2]
    ∧ ([0, 1, 2] : List Nat).Nodup := by
  have h := c8_endpoint_ids_unique ⟨⟨0⟩, [], []⟩
    [Core.EpInsert.pipe 1, Core.EpInsert.acceptor 1, Core.EpInsert.pipe 2]
    (by intro k hk; simp [Core.EndpointCollection.keys] at hk)
    (by intro k hk; simp at hk)
  refine ⟨by decide, ?_⟩
  have h1 := h.1
  rw [show (Core.EndpointCollection.run ⟨⟨0⟩, [], []⟩
    [Core.EpInsert.pipe 1, Core.EpInsert.acceptor 1, Core.EpInsert.pipe 2]).1
      = [0, 1, 2] from by decide] at h1
  exact h1

/-- Messages are a protocol header plus a user body, both byte lists
(global::Message). -/
structure Message where
  header : List Nat
  body : List Nat
  deriving DecidableEq, Repr

/-- Big-endian bytes of a u32 as appended by write_u32 BigEndian. -/
def beBytes (id : Nat) : List Nat :=
  [id / 16777216 % 256, id / 65536 % 256, id / 256 % 256, id % 256]

/-- Big-endian u32 read from the first four bytes of a cursor, as done by
read_u32 BigEndian. -/
def beU32 : List Nat → Nat
  | b0 :: b1 :: b2 :: b3 :: _ => ((b0 * 256 + b1) * 256 + b2) * 256 + b3
  | _ => 0

namespace Legacy

/-- Embeds the Surv protocol state (src/protocol/surv.rs:27).  The pipe map
and the two cancel-timeout closures are elided: the settled claim is about
the survey-id state and the reply filter, which they do not touch. -/
structure Surv where
  pending_send : Option Message
  pending_recv : Bool
  pending_survey_id : Option Nat
  survey_id_seq : Nat
  deriving DecidableEq, Repr

/-- Embeds Surv::next_survey_id (src/protocol/surv.rs:52): the id is the
current u32 counter with the high bit forced on; the counter then wraps
around u32 overflow (release-mode Rust addition). -/
def Surv.next_survey_id (s : Surv) : Nat × Surv :=
  let next_id := s.survey_id_seq ||| 0x80000000
  (next_id, { s with survey_id_seq := (s.survey_id_seq + 1) % 4294967296 })

/-- Embeds Surv::msg_to_raw_msg (src/protocol/surv.rs:77): the 4 big-endian
bytes of the survey id are appended to the header. -/
def Surv.msg_to_raw_msg (msg : Message) (req_id : Nat) : Message :=
  { msg with header := msg.header ++ beBytes req_id }

/-- Embeds Surv::raw_msg_to_msg (src/protocol/surv.rs:60): the body is split
after 4 bytes, the survey id read big-endian from the first 4, which also
become (or extend) the header of the delivered message.  Callers guarantee
the body holds at least 4 bytes, so the io error branch is unreachable. -/
def Surv.raw_msg_to_msg (raw : Message) : Message × Nat :=
  let payload := raw.body.take 4
  let body := raw.body.drop 4
  let req_id := beU32 payload
  let header := if raw.header = [] then payload else raw.header ++ payload
  (⟨header, body⟩, req_id)

/-- Embeds the survey-state effect of Surv::send (src/protocol/surv.rs:200):
a fresh survey id is generated and becomes the sole pending id, and the raw
message carrying it is kept as the pending send.  The per-pipe fan-out and
timeout registration (which do not touch the survey-id state) are elided;
the returned pair exposes the raw message broadcast to every pipe and the
generated id. -/
def Surv.send (s : Surv) (msg : Message) : Surv × Message × Nat :=
  let idStep := s.next_survey_id
  let survey_id := idStep.1
  let raw := Surv.msg_to_raw_msg msg survey_id
  ({ idStep.2 with pending_survey_id := some survey_id, pending_send := some raw },
    raw, survey_id)

/-- Embeds Surv::on_raw_msg_recv (src/protocol/surv.rs:156): a raw reply with
fewer than 4 body bytes is dropped; otherwise the reply is delivered to the
user (MsgRecv) exactly when the id it carries equals the pending survey id,
and is silently discarded otherwise. -/
def Surv.on_raw_msg_recv (s : Surv) (raw : Message) : Option Message :=
  if raw.body.length < 4 then none
  else
    let conv := Surv.raw_msg_to_msg raw
    if s.pending_survey_id = some conv.2 then some conv.1 else none

end Legacy

/-- Helper: two numbers whose or with the 2^31 bit agree also agree below
bit 31. -/
theorem lor_high_bit_inj (x y : Nat) (h : x ||| 2 ^ 31 = y ||| 2 ^ 31) :
    x % 2 ^ 31 = y % 2 ^ 31 := by
  apply Nat.eq_of_testBit_eq
  intro i
  rw [Nat.testBit_mod_two_pow, Nat.testBit_mod_two_pow]
  rcases Nat.lt_or_ge i 31 with hi | hi
  · have hx := congrArg (fun n => n.testBit i) h
    simp only [Nat.testBit_lor, Nat.testBit_two_pow] at hx
    have hne : (31 : Nat) ≠ i := by omega
    simp only [hne, decide_False, Bool.or_false] at hx
    simp [hi, hx]
  · simp [Nat.not_lt.mpr hi]

/-- Claim C2: every SURVEYOR send generates a fresh survey id with the high
bit set and makes it the sole pending survey id (consecutive sends never
reuse an id); a completed reply is delivered to the user iff the 4-byte
big-endian id it carries equals the pending survey id, and every other reply
is silently discarded. -/
theorem c2_survey_id_filter (s : Legacy.Surv) (msg msg2 : Message) (raw : Message)
    (hseq : s.survey_id_seq < 4294967296) :
    (Legacy.Surv.send s msg).2.2.testBit 31 = true
    ∧ (Legacy.Surv.send s msg).1.pending_survey_id = some (Legacy.Surv.send s msg).2.2
    ∧ (Legacy.Surv.send (Legacy.Surv.send s msg).1 msg2).2.2
        ≠ (Legacy.Surv.send s msg).2.2
    ∧ ((Legacy.Surv.on_raw_msg_recv s raw).isSome ↔
        4 ≤ raw.body.length
        ∧ s.pending_survey_id = some (beU32 (raw.body.take 4))) := by
  refine ⟨?_, rfl, ?_, ?_⟩
  · show (s.survey_id_seq ||| 0x80000000).testBit 31 = true
    rw [show (0x80000000 : Nat) = 2 ^ 31 by norm_num, Nat.testBit_lor,
      Nat.testBit_two_pow]
    simp
  · show ((s.survey_id_seq + 1) % 4294967296) ||| 0x80000000
        ≠ s.survey_id_seq ||| 0x80000000
    rw [show (0x80000000 : Nat) = 2 ^ 31 by norm_num]
    intro h
    have := lor_high_bit_inj _ _ h
    have h32 : (4294967296 : Nat) = 2 ^ 32 := by norm_num
    rw [h32] at this
    have hd : (2 ^ 31 : Nat) ∣ 2 ^ 32 := by norm_num
    rw [Nat.mod_mod_of_dvd _ hd] at this
    have h31 : (2 ^ 31 : Nat) = 2147483648 := by norm_num
    rw [h31] at this
    omega
  · unfold Legacy.Surv.on_raw_msg_recv Legacy.Surv.raw_msg_to_msg
    by_cases hlen : raw.body.length < 4
    · simp only [hlen, if_true]
      simp
      omega
    · simp only [hlen, if_false]
      by_cases hid : s.pending_survey_id = some (beU32 (raw.body.take 4))
      · simp [hid]
        omega
      · simp [hid]

/-- Witness for C2: from a surveyor with counter 7 a send produces survey id
0x80000007, makes it pending, and a reply carrying those 4 bytes is
delivered while one carrying a different id is dropped. -/
theorem c2_survey_id_filter_witness :
    (Legacy.Surv.send ⟨none, false, none, 7⟩ ⟨[], [1]⟩).2.2 = 0x80000007
    ∧ (Legacy.Surv.send ⟨none, false, none, 7⟩ ⟨[], [1]⟩).1.pending_survey_id
        = some 0x80000007
    ∧ (Legacy.Surv.on_raw_msg_recv
        (Legacy.Surv.send ⟨none, false, none, 7⟩ ⟨[], [1]⟩).1
        ⟨[], [128, 0, 0, 7, 42]⟩).isSome = true
    ∧ Legacy.Surv.on_raw_msg_recv
        (Legacy.Surv.send ⟨none, false, none, 7⟩ ⟨[], [1]⟩).1
        ⟨[], [128, 0, 0, 8, 42]⟩ = none := by
  have h := c2_survey_id_filter
    (Legacy.Surv.send ⟨none, false, none, 7⟩ ⟨[], [1]⟩).1 ⟨[], [2]⟩ ⟨[], [2]⟩
    ⟨[], [128, 0, 0, 7, 42]⟩ (by decide)
  refine ⟨by decide, by decide, ?_, by decide⟩
  rw [h.2.2.2]
  exact ⟨by decide, by decide⟩

namespace Core

/-- Protocol events raised to the socket (core::context::Event, subset). -/
inductive Event
  | CanSend (b : Bool)
  | CanRecv (b : Bool)
  deriving DecidableEq, Repr

/-- Replies delivered to the user facade (core::socket::Reply, subset). -/
inductive Reply
  | Send
  | Recv (msg : Message)
  | Err (k : ErrorKind)
  deriving DecidableEq, Repr

/-- Embeds the Pub protocol state (src/proto/publ.rs:20): the pipe keys and
the broadcast-ready set bc (a HashSet, modelled as its element list). -/
structure Pub where
  pipes : List Nat
  bc : List Nat
  deriving DecidableEq, Repr

/-- Modelled from the spec: broadcast::send_to_all (its file
src/proto/policy/broadcast.rs is not among the sources); the shared message
is dispatched to every pipe in the ready set, and only to those. -/
def send_to_all (bc : List Nat) (msg : Message) : List (Nat × Message) :=
  bc.map (fun eid => (eid, msg))

/-- Observable result of one Pub user operation: the per-pipe dispatches, the
events raised to the socket, the user reply, and the canceled timeout. -/
structure ProtoStep where
  dispatched : List (Nat × Message)
  raised : List Event
  reply : Reply
  canceled : Option Nat
  deriving DecidableEq, Repr

/-- Embeds Pub::send (src/proto/publ.rs:62): broadcast to the ready set,
raise CanSend(false), reply Send unconditionally, cancel any pending
send timeout. -/
def Pub.send (p : Pub) (msg : Message) (timeout : Option Nat) : ProtoStep :=
  { dispatched := send_to_all p.bc msg
    raised := [Event.CanSend false]
    reply := Reply.Send
    canceled := timeout }

/-- Embeds Pub::recv (src/proto/publ.rs:83): recv is not supported by the pub
protocol, the reply is immediately other_io_error, and any pending recv
timeout is canceled. -/
def Pub.recv (_p : Pub) (timeout : Option Nat) : ProtoStep :=
  { dispatched := []
    raised := []
    reply := Reply.Err ErrorKind.Other
    canceled := timeout }

end Core

/-- Claim C7: PUB recv always fails immediately with an error reply, while
send always replies Send immediately, even when the ready set is empty, in
which case the message is dispatched to no pipe at all (silently dropped)
rather than producing an error. -/
theorem c7_pub_send_recv (p : Core.Pub) (msg : Message) (timeout : Option Nat) :
    (Core.Pub.recv p timeout).reply = Core.Reply.Err ErrorKind.Other
    ∧ (Core.Pub.send p msg timeout).reply = Core.Reply.Send
    ∧ (Core.Pub.send p msg timeout).dispatched = Core.send_to_all p.bc msg
    ∧ (p.bc = [] → (Core.Pub.send p msg timeout).dispatched = []) := by
  refine ⟨rfl, rfl, rfl, ?_⟩
  intro h
  simp [Core.Pub.send, Core.send_to_all, h]

/-- Witness for C7 on a PUB socket with no ready subscriber. -/
theorem c7_pub_send_recv_witness :
    (Core.Pub.recv ⟨[], []⟩ none).reply = Core.Reply.Err ErrorKind.Other
    ∧ (Core.Pub.send ⟨[], []⟩ ⟨[], [1, 2]⟩ none).reply = Core.Reply.Send
    ∧ (Core.Pub.send ⟨[], []⟩ ⟨[], [1, 2]⟩ none).dispatched = [] := by
  have h := c7_pub_send_recv ⟨[], []⟩ ⟨[], [1, 2]⟩ none
  exact ⟨h.1, h.2.1, h.2.2.2 rfl⟩

namespace Legacy

/-- Result of Pipe::send (pipe::SendStatus): the message went out fully, is
going out (partial write), or was postponed because the pipe cannot send. -/
inductive SendStatus
  | Completed
  | InProgress
  | Postponed
  deriving DecidableEq, Repr

/-- Result of Pipe::recv (pipe::RecvStatus). -/
inductive RecvStatus
  | Completed (msg : Message)
  | InProgress
  | Postponed
  deriving DecidableEq, Repr

/-- Socket events the legacy protocols push to the facade
(event_loop_msg::SocketEvt, subset). -/
inductive SocketEvt
  | MsgSent
  | MsgNotSent (k : ErrorKind)
  | MsgRecv (msg : Message)
  | MsgNotRecv (k : ErrorKind)
  deriving DecidableEq, Repr

/-- Decidable equality for Except values (not provided by the core library). -/
instance exceptDecEq {ε α : Type} [DecidableEq ε] [DecidableEq α] :
    DecidableEq (Except ε α) := fun a b =>
  match a, b with
  | Except.ok x, Except.ok y =>
    if h : x = y then isTrue (by rw [h])
    else isFalse (by intro hc; cases hc; exact h rfl)
  | Except.error x, Except.error y =>
    if h : x = y then isTrue (by rw [h])
    else isFalse (by intro hc; cases hc; exact h rfl)
  | Except.ok _, Except.error _ => isFalse (by intro hc; cases hc)
  | Except.error _, Except.ok _ => isFalse (by intro hc; cases hc)

/-- Embeds PushPipe (src/protocol/push.rs:114).  The inner Pipe is opaque
I/O, modelled by the status its send would return now (Err being an io
error), by the sent flag its ready would report, and by the pending_send
slot that PushPipe itself manages. -/
structure PushPipe where
  token : Nat
  sendResult : Except Unit SendStatus
  readyResult : Except Unit Bool
  pending_send : Bool
  deriving DecidableEq, Repr

/-- Embeds PushPipe::send (src/protocol/push.rs:131): Completed maps to
Some(true), InProgress to Some(false), Postponed stores the message in
pending_send and yields None. -/
def PushPipe.send (p : PushPipe) : Except Unit (Option Bool) × PushPipe :=
  match p.sendResult with
  | Except.error e => (Except.error e, p)
  | Except.ok SendStatus.Completed => (Except.ok (some true), p)
  | Except.ok SendStatus.InProgress => (Except.ok (some false), p)
  | Except.ok SendStatus.Postponed =>
    (Except.ok none, { p with pending_send := true })

/-- Embeds PushPipe::resume_pending_send (src/protocol/push.rs:144): take the
queued message, if any, and send it again. -/
def PushPipe.resume_pending_send (p : PushPipe) : Except Unit (Option Bool) × PushPipe :=
  if p.pending_send then PushPipe.send { p with pending_send := false }
  else (Except.ok none, p)

/-- Embeds PushPipe::reset_pending_send (src/protocol/push.rs:151). -/
def PushPipe.reset_pending_send (p : PushPipe) : PushPipe :=
  { p with pending_send := false }

/-- Embeds the pipe loop of Push::send (src/protocol/push.rs:84): each pipe
is tried in turn, the loop breaks right after a pipe reports sent or piped,
a Postponed pipe sets shared and the loop continues, an io error is skipped.
Returns the updated pipes and the flags (sent, piped, shared). -/
def Push.send_loop : List PushPipe → List PushPipe × Bool × Bool × Bool
  | [] => ([], false, false, false)
  | p :: ps =>
    let r := PushPipe.send p
    match r.1 with
    | Except.ok (some true) => (r.2 :: ps, true, false, false)
    | Except.ok (some false) => (r.2 :: ps, false, true, false)
    | Except.ok none =>
      let rest := Push.send_loop ps
      (r.2 :: rest.1, rest.2.1, rest.2.2.1, true)
    | Except.error _ =>
      let rest := Push.send_loop ps
      (r.2 :: rest.1, rest.2.1, rest.2.2.1, rest.2.2.2)

/-- Embeds Push::send (src/protocol/push.rs:78): MsgSent when a pipe
completed; every pending_send reset when a pipe completed or made progress;
MsgNotSent(NotConnected) when nothing was sent, piped or queued (in
particular when there is no pipe at all); no event when the message was only
queued. -/
def Push.send (pipes : List PushPipe) : List PushPipe × Option SocketEvt :=
  let loop := Push.send_loop pipes
  let sent := loop.2.1
  let piped := loop.2.2.1
  let shared := loop.2.2.2
  let evt : Option SocketEvt :=
    if sent then some SocketEvt.MsgSent
    else if !(sent || piped) && !shared then
      some (SocketEvt.MsgNotSent ErrorKind.NotConnected)
    else none
  let pipes3 :=
    if sent || piped then loop.1.map PushPipe.reset_pending_send else loop.1
  (pipes3, evt)

/-- Replaces the pipe stored under the token (HashMap::get_mut). -/
def updatePipe (pipes : List PushPipe) (tok : Nat) (q : PushPipe) : List PushPipe :=
  pipes.map (fun p => if p.token = tok then q else p)

/-- Embeds Push::ready (src/protocol/push.rs:45): when the readiness event
completed the pipe's write, MsgSent is raised; otherwise the queued message
is resumed on that pipe, raising MsgSent when it completes, and every pipe's
pending_send is reset as soon as the resume makes any progress. -/
def Push.ready (pipes : List PushPipe) (tok : Nat) :
    Except Unit (List PushPipe × Option SocketEvt) :=
  match pipes.find? (fun p => p.token == tok) with
  | none => Except.ok (pipes, none)
  | some p =>
    match p.readyResult with
    | Except.error e => Except.error e
    | Except.ok true => Except.ok (updatePipe pipes tok p, some SocketEvt.MsgSent)
    | Except.ok false =>
      let r := PushPipe.resume_pending_send p
      match r.1 with
      | Except.error e => Except.error e
      | Except.ok (some true) =>
        Except.ok ((updatePipe pipes tok r.2).map PushPipe.reset_pending_send,
          some SocketEvt.MsgSent)
      | Except.ok (some false) =>
        Except.ok ((updatePipe pipes tok r.2).map PushPipe.reset_pending_send, none)
      | Except.ok none => Except.ok (updatePipe pipes tok r.2, none)

end Legacy

/-- Counterexample to claim C1: a PUSH send with no connected pipe at all
raises MsgNotSent(NotConnected) immediately; it is not queued and the user
reply is NotConnected, not TimedOut, whether or not a send timeout is set
(the timeout is scheduled before the protocol runs and the error reply
arrives first). -/
theorem c1_counterexample :
    (Legacy.Push.send []).2
      = some (Legacy.SocketEvt.MsgNotSent ErrorKind.NotConnected)
    ∧ (Legacy.Push.send []).2
        ≠ some (Legacy.SocketEvt.MsgNotSent ErrorKind.TimedOut)
    ∧ (Legacy.Push.send []).2 ≠ none := by
  exact ⟨rfl, by decide, by decide⟩

/-- Helper for C1: when every pipe postpones, the send loop queues the
message on every pipe and reports only shared. -/
theorem push_send_loop_all_postponed (pipes : List Legacy.PushPipe)
    (h : ∀ p ∈ pipes, p.sendResult = Except.ok Legacy.SendStatus.Postponed) :
    Legacy.Push.send_loop pipes
      = (pipes.map (fun p => { p with pending_send := true }), false, false,
          !pipes.isEmpty) := by
  induction pipes with
  | nil => rfl
  | cons p ps ih =>
    have hp := h p (List.mem_cons_self p ps)
    have hps := ih (fun q hq => h q (List.mem_cons_of_mem p hq))
    simp only [Legacy.Push.send_loop, Legacy.PushPipe.send, hp, hps]
    simp [hp]

/-- Claim C1 as amended: a PUSH send while at least one pipe is connected but
none is send-ready is queued (the one outstanding message is parked in the
pipes' pending_send slots, no reply yet) and is dispatched on the next
readiness event of a pipe that can then complete it, raising MsgSent and
clearing the queue; but a send with no connected pipe at all is answered
immediately with Err(NotConnected), not with TimedOut. -/
theorem c1_push_send_queue (pipes : List Legacy.PushPipe) (tok : Nat)
    (p : Legacy.PushPipe) :
    (pipes ≠ [] →
      (∀ q ∈ pipes, q.sendResult = Except.ok Legacy.SendStatus.Postponed) →
      (Legacy.Push.send pipes).2 = none
      ∧ ∀ q ∈ (Legacy.Push.send pipes).1, q.pending_send = true)
    ∧ (Legacy.Push.send [] = ([],
        some (Legacy.SocketEvt.MsgNotSent ErrorKind.NotConnected)))
    ∧ (pipes.find? (fun q => q.token == tok) = some p →
      p.readyResult = Except.ok false →
      p.pending_send = true →
      p.sendResult = Except.ok Legacy.SendStatus.Completed →
      ∃ pipes2, Legacy.Push.ready pipes tok
          = Except.ok (pipes2, some Legacy.SocketEvt.MsgSent)
        ∧ ∀ q ∈ pipes2, q.pending_send = false) := by
  refine ⟨?_, rfl, ?_⟩
  · intro hne hall
    have hloop := push_send_loop_all_postponed pipes hall
    have hemp : pipes.isEmpty = false := by
      cases pipes with
      | nil => exact absurd rfl hne
      | cons a as => rfl
    constructor
    · simp [Legacy.Push.send, hloop, hemp]
    · intro q hq
      simp only [Legacy.Push.send, hloop, hemp] at hq
      simp at hq
      rcases hq with ⟨r, _, hr⟩
      rw [← hr]
  · intro hfind hready hpend hsend
    refine ⟨(Legacy.updatePipe pipes tok { p with pending_send := false }).map
      Legacy.PushPipe.reset_pending_send, ?_, ?_⟩
    · simp only [Legacy.Push.ready, hfind, hready,
        Legacy.PushPipe.resume_pending_send, hpend, if_true,
        Legacy.PushPipe.send, hsend]
    · intro q hq
      rcases List.mem_map.mp hq with ⟨r, _, hr⟩
      rw [← hr]
      rfl

/-- Witness for C1 (amended): one connected but not send-ready pipe queues
the message with no reply; a later readiness on a pipe with the queued
message completes it with MsgSent and a cleared queue. -/
theorem c1_push_send_queue_witness :
    ((Legacy.Push.send
        [⟨1, Except.ok Legacy.SendStatus.Postponed, Except.ok false, false⟩]).2
      = none)
    ∧ ∃ pipes2, Legacy.Push.ready
        [⟨1, Except.ok Legacy.SendStatus.Completed, Except.ok false, true⟩] 1
        = Except.ok (pipes2, some Legacy.SocketEvt.MsgSent)
      ∧ ∀ q ∈ pipes2, q.pending_send = false := by
  have h1 := (c1_push_send_queue
    [⟨1, Except.ok Legacy.SendStatus.Postponed, Except.ok false, false⟩] 1
    ⟨1, Except.ok Legacy.SendStatus.Postponed, Except.ok false, false⟩).1
    (by decide) (by decide)
  have h2 := (c1_push_send_queue
    [⟨1, Except.ok Legacy.SendStatus.Completed, Except.ok false, true⟩] 1
    ⟨1, Except.ok Legacy.SendStatus.Completed, Except.ok false, true⟩).2.2
    (by decide) rfl rfl rfl
  exact ⟨h1.1, h2⟩

namespace Legacy

/-- Opaque payload of an endpoint handed to the Pair protocol: the underlying
connection, modelled by the statuses its pipe operations would return now. -/
structure Endpoint where
  sendResult : Except Unit SendStatus
  recvResult : Except Unit RecvStatus
  deriving DecidableEq, Repr

/-- Embeds the pipe slot of the Pair protocol (pipe::Pipe as used by
src/protocol/pair.rs): a token plus the opaque endpoint. -/
structure PairPipe where
  token : Nat
  sendResult : Except Unit SendStatus
  recvResult : Except Unit RecvStatus
  deriving DecidableEq, Repr

/-- Embeds the Pair protocol state (src/protocol/pair.rs:21); the two
cancel-timeout closures are elided (they never touch the pipe slot). -/
structure Pair where
  pipe : Option PairPipe
  pending_send : Option Message
  pending_recv : Bool
  deriving DecidableEq, Repr

/-- Embeds Pair::add_endpoint (src/protocol/pair.rs:128): the single slot is
assigned unconditionally, so an endpoint added while a pipe is active
replaces that pipe (the old pipe is dropped, not parked beside it). -/
def Pair.add_endpoint (s : Pair) (token : Nat) (endpoint : Endpoint) : Pair :=
  { s with pipe := some ⟨token, endpoint.sendResult, endpoint.recvResult⟩ }

/-- Embeds Pair::remove_endpoint (src/protocol/pair.rs:132): only the token
of the active pipe removes and returns it; any other token returns None and
leaves the slot as it is. -/
def Pair.remove_endpoint (s : Pair) (token : Nat) : Option Endpoint × Pair :=
  if some token = s.pipe.map PairPipe.token then
    (s.pipe.map (fun p => ⟨p.sendResult, p.recvResult⟩), { s with pipe := none })
  else
    (none, s)

/-- Embeds Pair::send (src/protocol/pair.rs:140): with no pipe the message is
parked in pending_send; otherwise the one active pipe receives the send (the
returned token names it), MsgSent is raised when it completes, and the
message stays pending only when the pipe postponed or failed. -/
def Pair.send (s : Pair) (msg : Message) : Pair × Option SocketEvt × Option Nat :=
  match s.pipe with
  | none => ({ s with pending_send := some msg }, none, none)
  | some pipe =>
    match pipe.sendResult with
    | Except.ok SendStatus.Completed =>
      ({ s with pending_send := none }, some SocketEvt.MsgSent, some pipe.token)
    | Except.ok SendStatus.InProgress =>
      ({ s with pending_send := none }, none, some pipe.token)
    | Except.ok SendStatus.Postponed =>
      ({ s with pending_send := some msg }, none, some pipe.token)
    | Except.error _ =>
      ({ s with pending_send := some msg }, none, some pipe.token)

/-- Embeds Pair::recv (src/protocol/pair.rs:170): with no pipe the recv is
parked in pending_recv; otherwise the one active pipe is polled (the
returned token names it) and a completed message is delivered. -/
def Pair.recv (s : Pair) : Pair × Option SocketEvt × Option Nat :=
  match s.pipe with
  | none => ({ s with pending_recv := true }, none, none)
  | some pipe =>
    match pipe.recvResult with
    | Except.ok (RecvStatus.Completed msg) =>
      ({ s with pending_recv := false }, some (SocketEvt.MsgRecv msg), some pipe.token)
    | Except.ok RecvStatus.InProgress =>
      ({ s with pending_recv := false }, none, some pipe.token)
    | Except.ok RecvStatus.Postponed =>
      ({ s with pending_recv := true }, none, some pipe.token)
    | Except.error _ =>
      ({ s with pending_recv := true }, none, some pipe.token)

end Legacy

/-- Counterexample to claim C5: adding a second endpoint to a PAIR socket
whose pipe (token 1) is active does not park the new pipe; it replaces the
active pipe, and the next send is routed to the new pipe (token 2), not to
the previously active one. -/
theorem c5_counterexample :
    (Legacy.Pair.add_endpoint
        ⟨some ⟨1, Except.ok Legacy.SendStatus.Completed,
          Except.ok Legacy.RecvStatus.InProgress⟩, none, false⟩ 2
        ⟨Except.ok Legacy.SendStatus.Completed,
          Except.ok Legacy.RecvStatus.InProgress⟩).pipe.map Legacy.PairPipe.token
      = some 2
    ∧ (Legacy.Pair.send
        (Legacy.Pair.add_endpoint
          ⟨some ⟨1, Except.ok Legacy.SendStatus.Completed,
            Except.ok Legacy.RecvStatus.InProgress⟩, none, false⟩ 2
          ⟨Except.ok Legacy.SendStatus.Completed,
            Except.ok Legacy.RecvStatus.InProgress⟩) ⟨[], [1]⟩).2.2
      = some 2 := by
  exact ⟨rfl, rfl⟩

/-- Claim C5 as amended: the PAIR protocol holds at most one pipe, and every
send or recv is routed to that pipe alone; remove_endpoint with a token other
than the active pipe's returns None and leaves the active pipe in place (and
the matching token removes and returns it); but an additionally added
endpoint is not parked: it replaces the active pipe, which is dropped. -/
theorem c5_pair_single_pipe (s : Legacy.Pair) (tok : Nat)
    (ep : Legacy.Endpoint) (msg : Message) :
    ((Legacy.Pair.add_endpoint s tok ep).pipe
        = some ⟨tok, ep.sendResult, ep.recvResult⟩)
    ∧ ((Legacy.Pair.send s msg).2.2 = s.pipe.map Legacy.PairPipe.token)
    ∧ ((Legacy.Pair.recv s).2.2 = s.pipe.map Legacy.PairPipe.token)
    ∧ (s.pipe.map Legacy.PairPipe.token ≠ some tok →
        Legacy.Pair.remove_endpoint s tok = (none, s))
    ∧ (s.pipe.map Legacy.PairPipe.token = some tok →
        (Legacy.Pair.remove_endpoint s tok).2.pipe = none) := by
  refine ⟨rfl, ?_, ?_, ?_, ?_⟩
  · cases hp : s.pipe with
    | none => simp [Legacy.Pair.send, hp]
    | some pipe =>
      cases hs : pipe.sendResult with
      | error e => simp [Legacy.Pair.send, hp, hs]
      | ok st => cases st <;> simp [Legacy.Pair.send, hp, hs]
  · cases hp : s.pipe with
    | none => simp [Legacy.Pair.recv, hp]
    | some pipe =>
      cases hr : pipe.recvResult with
      | error e => simp [Legacy.Pair.recv, hp, hr]
      | ok st => cases st <;> simp [Legacy.Pair.recv, hp, hr]
  · intro hne
    unfold Legacy.Pair.remove_endpoint
    rw [if_neg (fun h => hne h.symm)]
  · intro heq
    unfold Legacy.Pair.remove_endpoint
    rw [if_pos heq.symm]

/-- Witness for C5 (amended) on a PAIR socket with active pipe token 1:
remove_endpoint(2) is a no-op returning None, remove_endpoint(1) clears the
slot. -/
theorem c5_pair_single_pipe_witness :
    Legacy.Pair.remove_endpoint
        ⟨some ⟨1, Except.ok Legacy.SendStatus.Completed,
          Except.ok Legacy.RecvStatus.InProgress⟩, none, false⟩ 2
      = (none, ⟨some ⟨1, Except.ok Legacy.SendStatus.Completed,
          Except.ok Legacy.RecvStatus.InProgress⟩, none, false⟩)
    ∧ (Legacy.Pair.remove_endpoint
        ⟨some ⟨1, Except.ok Legacy.SendStatus.Completed,
          Except.ok Legacy.RecvStatus.InProgress⟩, none, false⟩ 1).2.pipe
      = none := by
  have h := c5_pair_single_pipe
    ⟨some ⟨1, Except.ok Legacy.SendStatus.Completed,
      Except.ok Legacy.RecvStatus.InProgress⟩, none, false⟩ 2
    ⟨Except.ok Legacy.SendStatus.Completed,
      Except.ok Legacy.RecvStatus.InProgress⟩ ⟨[], []⟩
  have h1 := c5_pair_single_pipe
    ⟨some ⟨1, Except.ok Legacy.SendStatus.Completed,
      Except.ok Legacy.RecvStatus.InProgress⟩, none, false⟩ 1
    ⟨Except.ok Legacy.SendStatus.Completed,
      Except.ok Legacy.RecvStatus.InProgress⟩ ⟨[], []⟩
  exact ⟨h.2.2.2.1 (by decide), h1.2.2.2.2 rfl⟩

namespace Core

/-- One result of the nonblocking listener's accept(): a stream (identified
by a number), WouldBlock (the drain point), or another io error. -/
inductive AcceptResult
  | ok (stream : Nat)
  | wouldBlock
  | err (k : ErrorKind)
  deriving DecidableEq, Repr

/-- Events an acceptor raises (transport::acceptor::Event). -/
inductive AcceptorEvent
  | Opened
  | Closed
  | Error (k : ErrorKind)
  | Accepted (pipes : List Nat)
  deriving DecidableEq, Repr

/-- Embeds the accept loop of TcpAcceptor::accept
(src/transport/tcp/acceptor.rs:34): every Ok stream becomes a pipe, a
WouldBlock error breaks the loop, any other error raises Error(e) and the
loop continues with the next accept() call.  The nonblocking listener is
modelled by the script of results its successive accept() calls return.
Returns the pipes created and the Error events raised, both in order. -/
def TcpAcceptor.acceptLoop : List AcceptResult → List Nat × List AcceptorEvent
  | [] => ([], [])
  | AcceptResult.ok stream :: rest =>
    let r := TcpAcceptor.acceptLoop rest
    (stream :: r.1, r.2)
  | AcceptResult.wouldBlock :: _ => ([], [])
  | AcceptResult.err k :: rest =>
    let r := TcpAcceptor.acceptLoop rest
    (r.1, AcceptorEvent.Error k :: r.2)

/-- Embeds TcpAcceptor::accept (src/transport/tcp/acceptor.rs:31): after the
drain, a single Accepted event carrying all the pipes of this drain is raised
iff at least one stream was accepted. -/
def TcpAcceptor.accept (script : List AcceptResult) : List AcceptorEvent :=
  let r := TcpAcceptor.acceptLoop script
  r.2 ++ (if r.1.isEmpty then [] else [AcceptorEvent.Accepted r.1])

/-- Embeds TcpAcceptor::ready (src/transport/tcp/acceptor.rs:66): only a
readable event triggers the accept drain. -/
def TcpAcceptor.ready (readable : Bool) (script : List AcceptResult) :
    List AcceptorEvent :=
  if readable then TcpAcceptor.accept script else []

/-- Stream accepted by one accept() result, if any (statement helper). -/
def acceptedStream (r : AcceptResult) : Option Nat :=
  match r with
  | AcceptResult.ok s => some s
  | _ => none

/-- Error event raised by one accept() result, if any (statement helper). -/
def raisedError (r : AcceptResult) : Option AcceptorEvent :=
  match r with
  | AcceptResult.err k => some (AcceptorEvent.Error k)
  | _ => none

/-- The accept loop processes exactly the prefix before the first WouldBlock:
it accepts every Ok stream there and raises an Error for every other error
there. -/
theorem TcpAcceptor.acceptLoop_spec (script : List AcceptResult) :
    TcpAcceptor.acceptLoop script
      = ((script.takeWhile (fun r => !(r == AcceptResult.wouldBlock))).filterMap
          acceptedStream,
         (script.takeWhile (fun r => !(r == AcceptResult.wouldBlock))).filterMap
          raisedError) := by
  induction script with
  | nil => rfl
  | cons r rest ih =>
    cases r with
    | ok s =>
      simp [TcpAcceptor.acceptLoop, List.takeWhile_cons, acceptedStream,
        raisedError, ih]
    | wouldBlock =>
      simp [TcpAcceptor.acceptLoop, List.takeWhile_cons]
    | err k =>
      simp [TcpAcceptor.acceptLoop, List.takeWhile_cons, acceptedStream,
        raisedError, ih]

end Core

/-- Counterexample to claim C6: a non-WouldBlock accept error does not stop
the drain; here the acceptor raises Error and then still accepts stream 7,
which the claim's fatal-error behavior forbids. -/
theorem c6_counterexample :
    Core.TcpAcceptor.accept
        [Core.AcceptResult.err ErrorKind.Other, Core.AcceptResult.ok 7,
          Core.AcceptResult.wouldBlock]
      = [Core.AcceptorEvent.Error ErrorKind.Other,
          Core.AcceptorEvent.Accepted [7]] := by
  rfl

/-- Claim C6 as amended: on a readable event the acceptor drains accept()
until WouldBlock, creating one pipe per accepted stream in that whole prefix
and raising a single Accepted event carrying their list (no event when the
drain accepted nothing); a non-WouldBlock accept error raises an Error event
but the drain continues rather than stopping.  When the socket handles an
acceptor error it removes and closes the acceptor and schedules a rebind to
the saved URL after 500 ms. -/
theorem c6_acceptor_drain (script : List Core.AcceptResult)
    (acceptors : List (Nat × String)) (tok : Nat) (addr : String) :
    (Core.TcpAcceptor.ready true script
      = (script.takeWhile (fun r => !(r == Core.AcceptResult.wouldBlock))).filterMap
          Core.raisedError
        ++ (if ((script.takeWhile
              (fun r => !(r == Core.AcceptResult.wouldBlock))).filterMap
                Core.acceptedStream).isEmpty
            then []
            else [Core.AcceptorEvent.Accepted
              ((script.takeWhile
                (fun r => !(r == Core.AcceptResult.wouldBlock))).filterMap
                  Core.acceptedStream)]))
    ∧ Core.TcpAcceptor.ready false script = []
    ∧ (acceptors.lookup tok = some addr →
        (Core.Socket.on_acceptor_error acceptors tok).2
          = some (EventLoopTimeout.Rebind tok addr, 500)
        ∧ ∀ x ∈ (Core.Socket.on_acceptor_error acceptors tok).1, x.1 ≠ tok) := by
  refine ⟨?_, rfl, ?_⟩
  · show Core.TcpAcceptor.accept script = _
    unfold Core.TcpAcceptor.accept
    rw [Core.TcpAcceptor.acceptLoop_spec]
  · intro h
    constructor
    · simp [Core.Socket.on_acceptor_error, Core.remove_acceptor, h]
    · intro x hx
      simp only [Core.Socket.on_acceptor_error, Core.remove_acceptor, h] at hx
      have := List.mem_filter.mp hx
      simpa using this.2

/-- Witness for C6 (amended): a drain over two accepted streams, an
interleaved error and a terminating WouldBlock, plus the socket reaction on
a one-acceptor socket. -/
theorem c6_acceptor_drain_witness :
    Core.TcpAcceptor.ready true
        [Core.AcceptResult.ok 4, Core.AcceptResult.err ErrorKind.Other,
          Core.AcceptResult.ok 5, Core.AcceptResult.wouldBlock,
          Core.AcceptResult.ok 6]
      = [Core.AcceptorEvent.Error ErrorKind.Other,
          Core.AcceptorEvent.Accepted [4, 5]]
    ∧ (Core.Socket.on_acceptor_error [(9, "tcp://127.0.0.1:7878")] 9).2
      = some (EventLoopTimeout.Rebind 9 "tcp://127.0.0.1:7878", 500) := by
  have h := c6_acceptor_drain
    [Core.AcceptResult.ok 4, Core.AcceptResult.err ErrorKind.Other,
      Core.AcceptResult.ok 5, Core.AcceptResult.wouldBlock,
      Core.AcceptResult.ok 6]
    [(9, "tcp://127.0.0.1:7878")] 9 "tcp://127.0.0.1:7878"
  refine ⟨?_, (h.2.2 (by simp [List.lookup])).1⟩
  rw [h.1]
  rfl
